import Mathlib

/-
Verification development for the streaming ingestion and windowed-chunk
orchestration subsystem of the teams-meeting-summarizer repository.

The Python modules embedded here are:
  src/streaming/transcript_buffer.py  (TranscriptBuffer)
  src/streaming/realtime_pipeline.py  (RealtimeSummarizationPipeline)
  src/preprocess/segmenter.py         (segment_by_time)
  src/config.py                       (Settings field table)
  src/summarization/inference.py      (generate_summary default resolution)

External collaborators (the transformer model, the NER backends, the
timestamp parser and datetime formatting) are taken as oracle parameters;
fallible external calls return an Except value.  Python integers are
modelled as Int, word lists as List String, dicts as insertion-ordered
association lists.
-/

namespace TeamsSummarizer

/-! ## Python primitives -/

/-- Model of a Python runtime exception relevant to the embedded code:
an AttributeError raised when an undeclared settings field is read, and the
generic external-model failure the spec calls ModelUnavailableError. -/
inductive PyError where
  | attributeError
  | modelUnavailable
  deriving Repr, DecidableEq

/-- Helper for the whitespace split: accumulates the current word (reversed)
while scanning the character list, emitting a word at each whitespace run. -/
def splitWordsAux : List Char → List Char → List String
  | [], acc => if acc.isEmpty then [] else [String.mk acc.reverse]
  | c :: cs, acc =>
    if c.isWhitespace then
      if acc.isEmpty then splitWordsAux cs []
      else String.mk acc.reverse :: splitWordsAux cs []
    else splitWordsAux cs (c :: acc)

/-- Python `text.split()` with no separator argument: splits on runs of
whitespace and never yields empty words. -/
def pySplit (s : String) : List String :=
  splitWordsAux s.toList []

/-- Python truthiness of an `Optional[str]` value: `None` and the empty
string are falsy, every other string is truthy. -/
def pyTruthy : Option String → Bool
  | none => false
  | some s => s ≠ ""

/-! ## src/config.py : Settings -/

/-- The declared field names of the `Settings` class in src/config.py.
`model_config` uses `extra="ignore"`, so reading any name outside this list
raises AttributeError. -/
def settingsFields : List String :=
  ["project_root", "data_dir", "models_dir", "outputs_dir",
   "summarization_model", "finetuned_model_path", "ner_backend",
   "spacy_model", "hf_ner_model",
   "learning_rate", "batch_size", "gradient_accumulation_steps",
   "num_epochs", "max_input_length", "max_target_length", "warmup_steps",
   "weight_decay", "eval_steps", "save_steps", "save_total_limit",
   "num_beams", "temperature", "top_p", "do_sample",
   "min_summary_length", "max_summary_length",
   "api_host", "api_port", "api_workers", "cors_origins",
   "log_level", "log_format", "log_file",
   "hf_home", "transformers_cache"]

/-- The integer-typed `Settings` fields together with their declared
defaults, from src/config.py. -/
def settingsIntDefaults : List (String × Int) :=
  [("batch_size", 2), ("gradient_accumulation_steps", 4), ("num_epochs", 3),
   ("max_input_length", 1024), ("max_target_length", 256),
   ("warmup_steps", 100), ("eval_steps", 100), ("save_steps", 500),
   ("save_total_limit", 3), ("num_beams", 4), ("min_summary_length", 30),
   ("max_summary_length", 200), ("api_port", 8000), ("api_workers", 1)]

/-- Reading an integer attribute off the global `settings` instance: yields
the declared default when the field exists, raises AttributeError
otherwise. -/
def settingsGetInt (name : String) : Except PyError Int :=
  match settingsIntDefaults.lookup name with
  | some v => Except.ok v
  | none => Except.error PyError.attributeError

/-! ## src/streaming/transcript_buffer.py : TranscriptBuffer -/

/-- Resolution of one `TranscriptBuffer.__init__` argument, modelling the
Python expression `arg or settings.<fallbackName>`: a missing (`None`) or
zero (falsy) argument falls back to the named settings attribute. -/
def resolveBufferArg (arg : Option Int) (fallbackName : String) :
    Except PyError Int :=
  match arg with
  | none => settingsGetInt fallbackName
  | some v => if v = 0 then settingsGetInt fallbackName else Except.ok v

/-- The configuration stored by `TranscriptBuffer.__init__`. -/
structure BufferConfig where
  buffer_size : Int
  overlap : Int
  deriving Repr, DecidableEq

/-- Model of `TranscriptBuffer.__init__(buffer_size, overlap)`: each argument is
resolved through Python truthiness against the settings fallback; no
validation of `overlap < buffer_size` is performed. -/
def transcriptBufferInit (buffer_size overlap : Option Int) :
    Except PyError BufferConfig := do
  let b ← resolveBufferArg buffer_size "streaming_buffer_size"
  let o ← resolveBufferArg overlap "streaming_overlap"
  pure ⟨b, o⟩

/-- The mutable state of a `TranscriptBuffer`: the configured sizes, the
deque of pending words, and the two monotone counters. -/
structure TranscriptBuffer where
  buffer_size : Nat
  overlap : Nat
  buffer : List String
  total_words : Nat
  chunks_generated : Nat
  deriving Repr, DecidableEq

/-- A freshly constructed buffer with the given (already validated)
configuration: empty deque, zero counters. -/
def mkBuffer (size overlap : Nat) : TranscriptBuffer :=
  ⟨size, overlap, [], 0, 0⟩

/-- Model of `TranscriptBuffer._extract_chunk`: takes the first `buffer_size` pending
words as the chunk text, pops `buffer_size - overlap` words off the front
(the Python loop guards each `popleft` against emptiness, which is the same
as `List.drop`), and increments `chunks_generated`. -/
def extractChunk (tb : TranscriptBuffer) : String × TranscriptBuffer :=
  let chunk_words := tb.buffer.take tb.buffer_size
  let chunk_text := String.intercalate " " chunk_words
  (chunk_text,
   { tb with
     buffer := tb.buffer.drop (tb.buffer_size - tb.overlap)
     chunks_generated := tb.chunks_generated + 1 })

/-- Model of `TranscriptBuffer.add_text`: splits the text on whitespace, extends the
deque, bumps `total_words`, and extracts a single chunk when the deque has
reached `buffer_size` words. -/
def addText (tb : TranscriptBuffer) (text : String) :
    Option String × TranscriptBuffer :=
  let words := pySplit text
  let tb' := { tb with
               buffer := tb.buffer ++ words
               total_words := tb.total_words + words.length }
  if tb'.buffer_size ≤ tb'.buffer.length then
    let (c, tb'') := extractChunk tb'
    (some c, tb'')
  else
    (none, tb')

/-- Model of `TranscriptBuffer.get_remaining`: `None` on an empty deque, otherwise
the joined remaining words, clearing the deque (the counters persist). -/
def getRemaining (tb : TranscriptBuffer) :
    Option String × TranscriptBuffer :=
  if tb.buffer.isEmpty then (none, tb)
  else (some (String.intercalate " " tb.buffer), { tb with buffer := [] })

/-- The dictionary returned by `TranscriptBuffer.get_stats`. -/
structure BufferStats where
  total_words_processed : Nat
  chunks_generated : Nat
  current_buffer_size : Nat
  buffer_capacity : Nat
  deriving Repr, DecidableEq

/-- Model of `TranscriptBuffer.get_stats`. -/
def getStats (tb : TranscriptBuffer) : BufferStats :=
  ⟨tb.total_words, tb.chunks_generated, tb.buffer.length, tb.buffer_size⟩

/-- Runs a sequence of `add_text` calls, keeping only the buffer state. -/
def processAll (tb : TranscriptBuffer) (texts : List String) :
    TranscriptBuffer :=
  texts.foldl (fun b t => (addText b t).2) tb

/-! ## src/streaming/realtime_pipeline.py : RealtimeSummarizationPipeline -/

/-- One entry of an `entities_by_type` list: the dicts produced by the NER
backends carry an `entity` string and an occurrence `count`. -/
structure EntityInfo where
  entity : String
  count : Int
  deriving Repr, DecidableEq

/-- The `entities_by_type` mapping of a formatted NER result: entity type
name to the list of entity-info dicts, as an insertion-ordered dict. -/
abbrev EntitiesByType := List (String × List EntityInfo)

/-- The dict returned by `NERExtractor.extract_and_format`; the pipeline
only ever reads its `entities_by_type` field. -/
structure EntitiesResult where
  entities_by_type : EntitiesByType
  deriving Repr, DecidableEq

/-- Model of `self.all_entities`: entity type to (entity text to cumulative count),
both levels as insertion-ordered dicts. -/
abbrev Merged := List (String × List (String × Int))

/-- One inner-dict update of `_merge_entities`: an absent entity text is
inserted at the end with the given count, a present one has the count added
in place. -/
def updInner (inner : List (String × Int)) (txt : String) (c : Int) :
    List (String × Int) :=
  match inner with
  | [] => [(txt, c)]
  | (k, v) :: rest =>
    if k = txt then (k, v + c) :: rest else (k, v) :: updInner rest txt c

/-- Folds one entity list into an inner dict, one `entity_info` at a time,
as the inner loop of `_merge_entities` does. -/
def applyInfos (inner : List (String × Int)) (infos : List EntityInfo) :
    List (String × Int) :=
  infos.foldl (fun inn i => updInner inn i.entity i.count) inner

/-- One outer-dict update of `_merge_entities`: the entity type key is
created (empty inner dict, inserted at the end) when absent, then the
entity list is folded into its inner dict. -/
def updOuter (all : Merged) (ty : String) (infos : List EntityInfo) :
    Merged :=
  match all with
  | [] => [(ty, applyInfos [] infos)]
  | (k, v) :: rest =>
    if k = ty then (k, applyInfos v infos) :: rest
    else (k, v) :: updOuter rest ty infos

/-- Model of `RealtimeSummarizationPipeline._merge_entities`: iterates the
`entities_by_type` items of one chunk result into `self.all_entities`. -/
def mergeEntities (all : Merged) (new : EntitiesByType) : Merged :=
  new.foldl (fun acc p => updOuter acc p.1 p.2) all

/-- Folds a sequence of chunk entity results into an empty session table,
in arrival order. -/
def mergeAll (chunks : List EntitiesByType) : Merged :=
  chunks.foldl mergeEntities []

/-- The count an inner dict records for an entity text (first matching
key, as a Python dict lookup); 0 when absent. -/
def innerCount : List (String × Int) → String → Int
  | [], _ => 0
  | (k, v) :: rest, txt => if k = txt then v else innerCount rest txt

/-- The cumulative count recorded in a merged table for one entity type and
text; 0 when either key is absent. -/
def countOf : Merged → String → String → Int
  | [], _, _ => 0
  | (k, inner) :: rest, ty, txt =>
    if k = ty then innerCount inner txt else countOf rest ty txt

/-- The total count an entity text receives inside one entity list. -/
def listCount (infos : List EntityInfo) (txt : String) : Int :=
  (infos.map (fun i => if i.entity = txt then i.count else 0)).sum

/-- The total count one chunk result contributes for an entity type and
text. -/
def chunkCount (new : EntitiesByType) (ty txt : String) : Int :=
  (new.map (fun p => if p.1 = ty then listCount p.2 txt else 0)).sum

/-! ### generate_summary default resolution (src/summarization/inference.py) -/

/-- The declared default of `settings.max_summary_length`. -/
def max_summary_length : Int := 200

/-- The resolution `max_length = max_length or settings.max_summary_length`
performed at the top of `generate_summary`: a missing or zero (falsy)
argument falls back to the settings default. -/
def resolveMaxLength : Option Int → Int
  | none => max_summary_length
  | some v => if v = 0 then max_summary_length else v

/-- Model of `generate_summary(transcript, model, tokenizer, max_length)`: resolves
the target length and invokes the model, which is abstracted as the oracle
`gen` taking the transcript and the resolved maximum length.  The oracle
may fail, as an unavailable model would. -/
def generate_summary (gen : String → Int → Except PyError String)
    (transcript : String) (maxLength : Option Int) : Except PyError String :=
  gen transcript (resolveMaxLength maxLength)

/-! ### Pipeline state and operations -/

/-- One entry of `self.chunk_summaries`, the `chunk_data` dict built by
`_process_chunk`. -/
structure ChunkData where
  chunk_number : Nat
  summary : String
  entities : EntitiesResult
  word_count : Nat
  deriving Repr, DecidableEq

/-- The mutable session state of a `RealtimeSummarizationPipeline`: the
transcript buffer plus the three accumulators. -/
structure PipelineState where
  buffer : TranscriptBuffer
  chunk_summaries : List ChunkData
  all_entities : Merged
  complete_transcript : List String
  deriving Repr, DecidableEq

/-- A pipeline session whose buffer has the given configuration and whose
accumulators are empty. -/
def initialState (capacity overlap : Nat) : PipelineState :=
  ⟨mkBuffer capacity overlap, [], [], []⟩

/-- Model of `RealtimeSummarizationPipeline._process_chunk`: summarizes the chunk
(no `max_length` argument, so the settings default applies), extracts
entities (oracle `ext`), appends the chunk record numbered
`len(chunk_summaries) + 1`, and merges the entities.  Either external call
may fail, and nothing catches the failure. -/
def processChunk (gen : String → Int → Except PyError String)
    (ext : String → Except PyError EntitiesResult)
    (st : PipelineState) (chunk_text : String) :
    Except PyError PipelineState := do
  let summary ← generate_summary gen chunk_text none
  let entities ← ext chunk_text
  let chunk_data : ChunkData :=
    { chunk_number := st.chunk_summaries.length + 1
      summary := summary
      entities := entities
      word_count := (pySplit chunk_text).length }
  pure { st with
         chunk_summaries := st.chunk_summaries ++ [chunk_data]
         all_entities := mergeEntities st.all_entities
                           entities.entities_by_type }

/-- Model of `RealtimeSummarizationPipeline._generate_final_summary`: joins the
chunk summaries in list order with single spaces; with more than one chunk
the concatenation is re-summarized with `max_length=300`, otherwise the
join itself is returned.  The value is returned to the caller. -/
def generateFinalSummary (gen : String → Int → Except PyError String)
    (st : PipelineState) : Except PyError String :=
  let all_summaries :=
    String.intercalate " " (st.chunk_summaries.map ChunkData.summary)
  if 1 < st.chunk_summaries.length then
    generate_summary gen all_summaries (some 300)
  else
    pure all_summaries

/-- Model of `RealtimeSummarizationPipeline.process_text_async`: appends the raw
fragment to `complete_transcript`, feeds the buffer, processes the emitted
chunk if any (Python truthiness on the optional string), and on a final
fragment flushes the remainder through `_process_chunk` and computes the
final consolidated summary — whose value is discarded. -/
def processTextAsync (gen : String → Int → Except PyError String)
    (ext : String → Except PyError EntitiesResult)
    (st : PipelineState) (text : String) (is_final : Bool) :
    Except PyError PipelineState := do
  let st1 := { st with
               complete_transcript := st.complete_transcript ++ [text] }
  let (chunk, buf) := addText st1.buffer text
  let st2 := { st1 with buffer := buf }
  let st3 ← if pyTruthy chunk then processChunk gen ext st2 (chunk.getD "")
            else pure st2
  if is_final then
    let (remaining, buf2) := getRemaining st3.buffer
    let st4 := { st3 with buffer := buf2 }
    let st5 ← if pyTruthy remaining then
                processChunk gen ext st4 (remaining.getD "")
              else pure st4
    let _final ← generateFinalSummary gen st5
    pure st5
  else
    pure st3

/-- The values appearing in the dict returned by `get_results`. -/
inductive ResultValue where
  | chunks (cs : List ChunkData)
  | entities (m : Merged)
  | parts (ps : List String)
  | stats (s : BufferStats)
  deriving Repr, DecidableEq

/-- Model of `RealtimeSummarizationPipeline.get_results`: the four-key dict exposing
the current session state. -/
def getResults (st : PipelineState) : List (String × ResultValue) :=
  [("chunk_summaries", ResultValue.chunks st.chunk_summaries),
   ("entities", ResultValue.entities st.all_entities),
   ("transcript_parts", ResultValue.parts st.complete_transcript),
   ("buffer_stats", ResultValue.stats (getStats st.buffer))]

/-- Chunk records are numbered consecutively from 1 in list order; the list
order of `chunk_summaries` is then also the `chunk_number` order. -/
def chunkNumbersConsecutive (l : List ChunkData) : Prop :=
  ∀ i (h : i < l.length), (l.get ⟨i, h⟩).chunk_number = i + 1

/-! ## src/preprocess/segmenter.py : segment_by_time -/

/-- A `TranscriptSegment` as produced by `segment_by_speaker` (its
`to_dict` image carries the same four fields). -/
structure PySegment where
  speaker : String
  text : String
  timestamp : Option String
  start_line : Option Nat
  deriving Repr, DecidableEq

/-- One element of the list returned by `segment_by_time`: either the
single `{"window": "full", "content": text}` dict of the no-timestamp
branch, or a `{"window_start": ..., "segments": ...}` dict. -/
inductive TimeWindow where
  | fullWindow (content : String)
  | timedWindow (window_start : String) (segments : List PySegment)
  deriving Repr, DecidableEq

/-- The loop state of `segment_by_time`: emitted windows, the window being
accumulated, and the current window-start timestamp (absolute seconds; the
`datetime` arithmetic is modelled on seconds). -/
structure SBTState where
  time_windows : List TimeWindow
  current_window : List PySegment
  window_start : Option Int
  deriving Repr, DecidableEq

/-- One iteration of the `for segment in segments` loop of
`segment_by_time`.  A falsy timestamp or a timestamp the parser rejects
(the `except ValueError` arm) appends the segment to the current window;
a parsed timestamp at least `window_minutes` past the window start closes
the current window (when non-empty) and opens a new one. -/
def sbtStep (parseTS : String → Option Int) (iso : Int → String)
    (window_minutes : Int) (acc : SBTState) (seg : PySegment) : SBTState :=
  if pyTruthy seg.timestamp then
    match parseTS (seg.timestamp.getD "") with
    | none => { acc with current_window := acc.current_window ++ [seg] }
    | some ts =>
      let ws := acc.window_start.getD ts
      if window_minutes * 60 ≤ ts - ws then
        { time_windows :=
            if acc.current_window.isEmpty then acc.time_windows
            else acc.time_windows ++
              [TimeWindow.timedWindow (iso ws) acc.current_window]
          current_window := [seg]
          window_start := some ts }
      else
        { acc with
          current_window := acc.current_window ++ [seg]
          window_start := some ws }
  else
    { acc with current_window := acc.current_window ++ [seg] }

/-- Model of `segment_by_time(text, window_minutes)`.  `segmenter` abstracts
`segment_by_speaker` (a regex scan), `parseTS` abstracts
`_parse_timestamp` (`none` models a ValueError), and `iso` abstracts
`datetime.isoformat`.  When no parsed segment carries a truthy timestamp
string the function short-circuits to the single full window; otherwise it
runs the windowing loop and flushes the last window, labelling it
"unknown" when no timestamp was ever parsed. -/
def segment_by_time (segmenter : String → List PySegment)
    (parseTS : String → Option Int) (iso : Int → String)
    (text : String) (window_minutes : Int) : List TimeWindow :=
  let segments := segmenter text
  if segments.isEmpty || !(segments.any fun s => pyTruthy s.timestamp) then
    [TimeWindow.fullWindow text]
  else
    let final := segments.foldl (sbtStep parseTS iso window_minutes)
      ⟨[], [], none⟩
    if final.current_window.isEmpty then final.time_windows
    else
      final.time_windows ++
        [TimeWindow.timedWindow
          (match final.window_start with
           | some ws => iso ws
           | none => "unknown")
          final.current_window]

/-! ## Shared concrete oracles for counterexamples and witnesses -/

/-- A summarization oracle that always succeeds with the fixed text S. -/
def okGen : String → Int → Except PyError String :=
  fun _ _ => Except.ok "S"

/-- An entity-extraction oracle that always succeeds with no entities. -/
def okExt : String → Except PyError EntitiesResult :=
  fun _ => Except.ok ⟨[]⟩

/-- A summarization oracle whose model is unavailable on every call. -/
def failGen : String → Int → Except PyError String :=
  fun _ _ => Except.error PyError.modelUnavailable

/-! ## Buffer lemmas -/

/-- Unfolding of `add_text` in the emitting case: the deque reached
`buffer_size` words after the extension, so one chunk is extracted. -/
theorem addText_emit (tb : TranscriptBuffer) (t : String)
    (h : tb.buffer_size ≤ tb.buffer.length + (pySplit t).length) :
    addText tb t =
      (some (String.intercalate " "
               ((tb.buffer ++ pySplit t).take tb.buffer_size)),
       { tb with
         buffer := (tb.buffer ++ pySplit t).drop (tb.buffer_size - tb.overlap)
         total_words := tb.total_words + (pySplit t).length
         chunks_generated := tb.chunks_generated + 1 }) := by
  simp [addText, extractChunk, List.length_append, h]

/-- Unfolding of `add_text` in the non-emitting case: the deque stays below
`buffer_size` words, so the words are only buffered. -/
theorem addText_noemit (tb : TranscriptBuffer) (t : String)
    (h : tb.buffer.length + (pySplit t).length < tb.buffer_size) :
    addText tb t =
      (none,
       { tb with
         buffer := tb.buffer ++ pySplit t
         total_words := tb.total_words + (pySplit t).length }) := by
  have hlen : ¬ tb.buffer_size ≤ tb.buffer.length + (pySplit t).length := by
    omega
  simp [addText, extractChunk, List.length_append, hlen]

/-- Calling `add_text` never changes the configured capacity and overlap. -/
theorem addText_config (tb : TranscriptBuffer) (t : String) :
    (addText tb t).2.buffer_size = tb.buffer_size ∧
    (addText tb t).2.overlap = tb.overlap := by
  by_cases h : tb.buffer_size ≤ tb.buffer.length + (pySplit t).length
  · rw [addText_emit tb t h]; exact ⟨rfl, rfl⟩
  · rw [addText_noemit tb t (by omega)]; exact ⟨rfl, rfl⟩

/-- A single-call bound: starting below capacity and adding at most
`buffer_size - overlap` words leaves the deque below capacity again,
whether or not a chunk is emitted. -/
theorem addText_length_bound (tb : TranscriptBuffer) (t : String)
    (hov : tb.overlap < tb.buffer_size)
    (hpre : tb.buffer.length < tb.buffer_size)
    (hsm : (pySplit t).length ≤ tb.buffer_size - tb.overlap) :
    (addText tb t).2.buffer.length < tb.buffer_size := by
  by_cases h : tb.buffer_size ≤ tb.buffer.length + (pySplit t).length
  · rw [addText_emit tb t h]
    simp only [List.length_drop, List.length_append]
    omega
  · rw [addText_noemit tb t (by omega)]
    simp only [List.length_append]
    omega

/-- The fold invariant behind the corrected occupancy invariant: a buffer
below capacity, fed only fragments of at most `buffer_size - overlap`
words, stays below capacity after every call. -/
theorem processAll_length_bound (texts : List String) :
    ∀ tb : TranscriptBuffer, tb.overlap < tb.buffer_size →
      tb.buffer.length < tb.buffer_size →
      (∀ t ∈ texts, (pySplit t).length ≤ tb.buffer_size - tb.overlap) →
      (processAll tb texts).buffer.length < tb.buffer_size ∧
      (processAll tb texts).buffer_size = tb.buffer_size := by
  induction texts with
  | nil => intro tb _ hpre _; exact ⟨hpre, rfl⟩
  | cons t rest ih =>
    intro tb hov hpre hsm
    have hcfg := addText_config tb t
    have hstep := addText_length_bound tb t hov hpre
      (hsm t (List.mem_cons_self t rest))
    have hrest := ih (addText tb t).2 (by rw [hcfg.1, hcfg.2]; exact hov)
      (by rw [hcfg.1]; exact hstep)
      (by intro u hu; rw [hcfg.1, hcfg.2];
          exact hsm u (List.mem_cons_of_mem t hu))
    have hfold : processAll tb (t :: rest) = processAll (addText tb t).2 rest :=
      rfl
    rw [hfold]
    exact ⟨lt_of_lt_of_le hrest.1 (le_of_eq hcfg.1), hrest.2.trans hcfg.1⟩

/-! ## Claim C1 -/

/-- C1, counterexample: with capacity 3 and overlap 1, a single `add_text`
call delivering seven words emits a chunk yet leaves five pending words,
which is not strictly less than the capacity.  The claimed invariant
`len(pending_words) < buffer_capacity` immediately after any emission is
therefore false. -/
theorem c1_counterexample :
    ((addText (mkBuffer 3 1) "a b c d e f g").1.isSome = true) ∧
    ¬ ((addText (mkBuffer 3 1) "a b c d e f g").2.buffer.length <
        (mkBuffer 3 1).buffer_size) := by decide

/-- C1 (amended): for every `TranscriptBuffer` with
`capacity > overlap >= 0`, and every sequence of `add_text` calls each of
which supplies at most `capacity - overlap` words, the number of pending
buffered words is strictly less than the capacity after every call — in
particular immediately after any call that emits a chunk.  (Without the
per-call bound the invariant fails, as `c1_counterexample` shows: an
emission removes exactly `capacity - overlap` words, so a large enough
delivery leaves at least `capacity` words pending.) -/
theorem c1_amended_buffer_invariant (capacity overlap : Nat)
    (hov : overlap < capacity) (texts : List String)
    (hsm : ∀ t ∈ texts, (pySplit t).length ≤ capacity - overlap) :
    (processAll (mkBuffer capacity overlap) texts).buffer.length <
      capacity := by
  have h := processAll_length_bound texts (mkBuffer capacity overlap) hov
    (by simp [mkBuffer]; omega) hsm
  exact h.1

/-- Witness for `c1_amended_buffer_invariant` at capacity 3, overlap 1 and
two two-word fragments. -/
theorem c1_amended_buffer_invariant_witness :
    (processAll (mkBuffer 3 1) ["a b", "c d"]).buffer.length < 3 :=
  c1_amended_buffer_invariant 3 1 (by decide) ["a b", "c d"] (by decide)

/-! ## Claims C2 and C10 -/

/-- C2, counterexample: `TranscriptBuffer(buffer_size=2, overlap=5)` has
`overlap >= capacity` yet construction succeeds (there is no validation and
no ConfigError anywhere in the code), while
`TranscriptBuffer(buffer_size=4, overlap=0)` satisfies
`0 <= overlap < capacity` yet construction fails, because the falsy `0`
routes to the non-existent `settings.streaming_overlap` attribute.  Both
halves of the claim are false. -/
theorem c2_counterexample :
    transcriptBufferInit (some 2) (some 5) =
      Except.ok ⟨2, 5⟩ ∧
    transcriptBufferInit (some 4) (some 0) =
      Except.error PyError.attributeError :=
  ⟨rfl, rfl⟩

/-- C2 (amended): `TranscriptBuffer.__init__` performs no configuration
validation and can raise no ConfigError (no such error exists in the
repository).  For every pair of nonzero integers — including every pair
with `overlap >= capacity` — construction succeeds and stores the
arguments unchanged; passing `0` (falsy) for `overlap`, or omitting or
zeroing `buffer_size`, instead raises AttributeError through the settings
fallback. -/
theorem c2_amended_init_behavior (b o : Int) (hb : b ≠ 0) (ho : o ≠ 0) :
    transcriptBufferInit (some b) (some o) = Except.ok ⟨b, o⟩ ∧
    transcriptBufferInit (some b) (some 0) =
      Except.error PyError.attributeError ∧
    transcriptBufferInit none (some o) =
      Except.error PyError.attributeError := by
  have hbs : settingsGetInt "streaming_buffer_size" =
      Except.error PyError.attributeError := rfl
  have hos : settingsGetInt "streaming_overlap" =
      Except.error PyError.attributeError := rfl
  refine ⟨?_, ?_, ?_⟩
  · simp only [transcriptBufferInit, resolveBufferArg, if_neg hb, if_neg ho]
    rfl
  · simp only [transcriptBufferInit, resolveBufferArg, if_neg hb, if_pos rfl,
      hos]
    rfl
  · simp only [transcriptBufferInit, resolveBufferArg, hbs]
    rfl

/-- Witness for `c2_amended_init_behavior` at buffer_size 2, overlap 5 (an
overlap exceeding the capacity, accepted without error). -/
theorem c2_amended_init_behavior_witness :
    transcriptBufferInit (some 2) (some 5) = Except.ok ⟨2, 5⟩ :=
  (c2_amended_init_behavior 2 5 (by decide) (by decide)).1

/-- C10: a `buffer_size` or `overlap` argument equal to `0` (or omitted,
i.e. `None`) is falsy, so `__init__` discards it in favour of
`settings.streaming_buffer_size` / `settings.streaming_overlap`; the
`Settings` class declares neither field, so the fallback raises
AttributeError instead of yielding a buffer.  In particular an overlap of
exactly 0 can never be configured by passing 0. -/
theorem c10_settings_fallback_fails (b o : Option Int)
    (h : b = some 0 ∨ b = none ∨ o = some 0 ∨ o = none) :
    transcriptBufferInit b o = Except.error PyError.attributeError ∧
    "streaming_buffer_size" ∉ settingsFields ∧
    "streaming_overlap" ∉ settingsFields := by
  have hos : settingsGetInt "streaming_overlap" =
      Except.error PyError.attributeError := rfl
  refine ⟨?_, by decide, by decide⟩
  rcases h with h | h | h | h
  · subst h; rfl
  · subst h; rfl
  · subst h
    cases b with
    | none => rfl
    | some v =>
      by_cases hv : v = 0
      · subst hv; rfl
      · simp only [transcriptBufferInit, resolveBufferArg, if_neg hv, hos]
        rfl
  · subst h
    cases b with
    | none => rfl
    | some v =>
      by_cases hv : v = 0
      · subst hv; rfl
      · simp only [transcriptBufferInit, resolveBufferArg, if_neg hv, hos]
        rfl

/-- Witness for `c10_settings_fallback_fails` at `buffer_size=0`,
`overlap=1`. -/
theorem c10_settings_fallback_fails_witness :
    transcriptBufferInit (some 0) (some 1) =
      Except.error PyError.attributeError ∧
    "streaming_buffer_size" ∉ settingsFields ∧
    "streaming_overlap" ∉ settingsFields :=
  c10_settings_fallback_fails (some 0) (some 1) (Or.inl rfl)

/-! ## Claim C3 -/

/-- C3: for a buffer with `capacity > overlap >= 0`, one `add_text(text)`
call splits the text on whitespace, appends the words, and raises
`total_words` by the word count.  When the pending count reaches or
exceeds the capacity it returns exactly one chunk — the first `capacity`
pending words joined by single spaces (the take has length exactly
`capacity`) — removes exactly the first `capacity - overlap` pending words,
and increments `chunks_generated` by one; otherwise it returns nothing and
only buffers.  At most one chunk per call is inherent in the return type
(`Option String`) even when several capacities' worth of words arrive. -/
theorem c3_add_text_correct (tb : TranscriptBuffer) (text : String)
    (_hov : tb.overlap < tb.buffer_size) :
    (addText tb text).2.total_words =
      tb.total_words + (pySplit text).length ∧
    (tb.buffer_size ≤ (tb.buffer ++ pySplit text).length →
      (addText tb text).1 =
        some (String.intercalate " "
          ((tb.buffer ++ pySplit text).take tb.buffer_size)) ∧
      ((tb.buffer ++ pySplit text).take tb.buffer_size).length =
        tb.buffer_size ∧
      (addText tb text).2.buffer =
        (tb.buffer ++ pySplit text).drop (tb.buffer_size - tb.overlap) ∧
      (tb.buffer ++ pySplit text) =
        (tb.buffer ++ pySplit text).take (tb.buffer_size - tb.overlap) ++
          (addText tb text).2.buffer ∧
      (addText tb text).2.chunks_generated = tb.chunks_generated + 1) ∧
    ((tb.buffer ++ pySplit text).length < tb.buffer_size →
      (addText tb text).1 = none ∧
      (addText tb text).2.buffer = tb.buffer ++ pySplit text ∧
      (addText tb text).2.chunks_generated = tb.chunks_generated) := by
  have happ : (tb.buffer ++ pySplit text).length =
      tb.buffer.length + (pySplit text).length := List.length_append _ _
  refine ⟨?_, ?_, ?_⟩
  · by_cases h : tb.buffer_size ≤ tb.buffer.length + (pySplit text).length
    · rw [addText_emit tb text h]
    · rw [addText_noemit tb text (by omega)]
  · intro h
    rw [happ] at h
    rw [addText_emit tb text h]
    refine ⟨rfl, ?_, rfl, ?_, rfl⟩
    · rw [List.length_take]; omega
    · exact (List.take_append_drop (tb.buffer_size - tb.overlap) _).symm
  · intro h
    rw [happ] at h
    rw [addText_noemit tb text (by omega)]
    exact ⟨rfl, rfl, rfl⟩

/-- Witness for `c3_add_text_correct`: a buffer of capacity 3, overlap 1,
holding one word, receiving three words, emits the first three pending
words as the chunk. -/
theorem c3_add_text_correct_witness :
    (addText ⟨3, 1, ["x"], 5, 2⟩ "a b c").1 =
      some (String.intercalate " " ((["x"] ++ pySplit "a b c").take 3)) :=
  ((c3_add_text_correct ⟨3, 1, ["x"], 5, 2⟩ "a b c" (by decide)).2.1
    (by decide)).1

/-! ## Claim C4 -/

/-- One `updInner` adds the given count to exactly one entity text and
leaves every other total unchanged. -/
theorem innerCount_updInner (inner : List (String × Int)) (txt : String)
    (c : Int) (txt' : String) :
    innerCount (updInner inner txt c) txt' =
      innerCount inner txt' + (if txt' = txt then c else 0) := by
  induction inner with
  | nil =>
    by_cases h : txt' = txt
    · subst h; simp [updInner, innerCount]
    · have h' : ¬ txt = txt' := fun hc => h hc.symm
      simp [updInner, innerCount, h, h']
  | cons p rest ih =>
    obtain ⟨k, v⟩ := p
    by_cases hk : k = txt
    · subst hk
      by_cases h : k = txt'
      · subst h
        simp [updInner, innerCount]
      · have h' : ¬ txt' = k := fun hc => h hc.symm
        simp [updInner, innerCount, h, h']
    · simp only [updInner, if_neg hk]
      by_cases h : k = txt'
      · subst h
        simp [innerCount, hk]
      · simp only [innerCount, if_neg h]
        exact ih

/-- Folding one chunk's entity list into an inner dict adds exactly that
list's totals. -/
theorem innerCount_applyInfos (infos : List EntityInfo) :
    ∀ (inner : List (String × Int)) (txt : String),
      innerCount (applyInfos inner infos) txt =
        innerCount inner txt + listCount infos txt := by
  induction infos with
  | nil => intro inner txt; simp [applyInfos, listCount]
  | cons i rest ih =>
    intro inner txt
    have h1 : applyInfos inner (i :: rest) =
        applyInfos (updInner inner i.entity i.count) rest := rfl
    rw [h1, ih, innerCount_updInner]
    simp only [listCount, List.map_cons, List.sum_cons]
    by_cases h : i.entity = txt
    · simp only [h, if_pos rfl]
      ring
    · have h' : ¬ txt = i.entity := fun hc => h hc.symm
      simp only [if_neg h, if_neg h']
      ring

/-- One `updOuter` adds one chunk entity list's totals to exactly one
entity type and leaves every other type unchanged. -/
theorem countOf_updOuter (ty : String) (infos : List EntityInfo)
    (all : Merged) (ty' txt : String) :
    countOf (updOuter all ty infos) ty' txt =
      countOf all ty' txt + (if ty' = ty then listCount infos txt else 0) := by
  induction all with
  | nil =>
    by_cases h : ty' = ty
    · subst h
      simp [updOuter, countOf, innerCount_applyInfos, innerCount]
    · have h' : ¬ ty = ty' := fun hc => h hc.symm
      simp [updOuter, countOf, h, h']
  | cons p rest ih =>
    obtain ⟨k, inner⟩ := p
    by_cases hk : k = ty
    · subst hk
      by_cases h : k = ty'
      · subst h
        simp [updOuter, countOf, innerCount_applyInfos]
      · have h' : ¬ ty' = k := fun hc => h hc.symm
        simp [updOuter, countOf, h, h']
    · simp only [updOuter, if_neg hk]
      by_cases h : k = ty'
      · subst h
        simp [countOf, hk]
      · simp only [countOf, if_neg h]
        exact ih

/-- Merging via `_merge_entities` adds exactly one chunk's per-type, per-text totals to
the session table. -/
theorem countOf_mergeEntities (new : EntitiesByType) :
    ∀ (all : Merged) (ty txt : String),
      countOf (mergeEntities all new) ty txt =
        countOf all ty txt + chunkCount new ty txt := by
  induction new with
  | nil => intro all ty txt; simp [mergeEntities, chunkCount]
  | cons p rest ih =>
    intro all ty txt
    have h1 : mergeEntities all (p :: rest) =
        mergeEntities (updOuter all p.1 p.2) rest := rfl
    rw [h1, ih, countOf_updOuter]
    simp only [chunkCount, List.map_cons, List.sum_cons]
    by_cases h : p.1 = ty
    · simp only [h, if_pos rfl]
      ring
    · have h' : ¬ ty = p.1 := fun hc => h hc.symm
      simp only [if_neg h, if_neg h']
      ring

/-- Folding any sequence of chunk results over any starting table yields,
per entity type and text, the starting total plus the sum of the per-chunk
totals. -/
theorem countOf_foldMerge (chunks : List EntitiesByType) :
    ∀ (init : Merged) (ty txt : String),
      countOf (chunks.foldl mergeEntities init) ty txt =
        countOf init ty txt +
          (chunks.map (fun c => chunkCount c ty txt)).sum := by
  induction chunks with
  | nil => intro init ty txt; simp
  | cons c rest ih =>
    intro init ty txt
    rw [List.foldl_cons, ih, countOf_mergeEntities]
    simp only [List.map_cons, List.sum_cons]
    ring

/-- C4: merging a session's per-chunk entity results is a commutative
monoid action on the totals: for every entity type and text the merged
count equals the sum of that entity's per-chunk counts, and merging the
chunks in any other arrival order (any permutation) yields identical
final totals. -/
theorem c4_merge_commutative_monoid (chunks₁ chunks₂ : List EntitiesByType)
    (hperm : chunks₁.Perm chunks₂) (ty txt : String) :
    countOf (mergeAll chunks₁) ty txt =
      (chunks₁.map (fun c => chunkCount c ty txt)).sum ∧
    countOf (mergeAll chunks₁) ty txt =
      countOf (mergeAll chunks₂) ty txt := by
  have h1 := countOf_foldMerge chunks₁ [] ty txt
  have h2 := countOf_foldMerge chunks₂ [] ty txt
  have hc : countOf ([] : Merged) ty txt = 0 := rfl
  constructor
  · rw [mergeAll, h1, hc, zero_add]
  · rw [mergeAll, mergeAll, h1, h2, hc,
      (hperm.map (fun c => chunkCount c ty txt)).sum_eq]

/-- A two-chunk example for the C4 witness: chunk A reports bob twice. -/
def exChunkA : EntitiesByType := [("PER", [⟨"bob", 2⟩])]

/-- A two-chunk example for the C4 witness: chunk B reports bob three
times and eve once. -/
def exChunkB : EntitiesByType := [("PER", [⟨"bob", 3⟩, ⟨"eve", 1⟩])]

/-- Witness for `c4_merge_commutative_monoid` on two concrete chunk
results merged in both orders. -/
theorem c4_merge_commutative_monoid_witness :
    countOf (mergeAll [exChunkA, exChunkB]) "PER" "bob" =
      (([exChunkA, exChunkB]).map
        (fun c => chunkCount c "PER" "bob")).sum ∧
    countOf (mergeAll [exChunkA, exChunkB]) "PER" "bob" =
      countOf (mergeAll [exChunkB, exChunkA]) "PER" "bob" :=
  c4_merge_commutative_monoid [exChunkA, exChunkB] [exChunkB, exChunkA]
    (List.Perm.swap exChunkB exChunkA []) "PER" "bob"

/-! ## Except reduction lemmas -/

/-- Unfolding of `pure` for the Except monad. -/
theorem exceptPure (v : α) : (pure v : Except ε α) = Except.ok v := rfl

/-- Bind on a successful Except value runs the continuation. -/
theorem exceptBind_ok (v : α) (k : α → Except ε β) :
    (Except.ok v : Except ε α) >>= k = k v := rfl

/-- Bind on a failed Except value propagates the failure. -/
theorem exceptBind_error (e : ε) (k : α → Except ε β) :
    (Except.error e : Except ε α) >>= k = Except.error e := rfl

/-- Map on a successful Except value. -/
theorem exceptMap_ok (h : α → β) (v : α) :
    Except.map h (Except.ok v : Except ε α) = Except.ok (h v) := rfl

/-! ## Pipeline lemmas -/

/-- Evaluation of `_process_chunk` when both external calls succeed: one
chunk record is appended, numbered `len(chunk_summaries) + 1`, and the
entities are merged. -/
theorem processChunk_okOracles (f : String → Int → String)
    (g : String → EntitiesResult) (st : PipelineState) (c : String) :
    processChunk (fun s n => Except.ok (f s n)) (fun s => Except.ok (g s))
        st c =
      Except.ok
        { st with
          chunk_summaries := st.chunk_summaries ++
            [⟨st.chunk_summaries.length + 1, f c (resolveMaxLength none),
              g c, (pySplit c).length⟩]
          all_entities := mergeEntities st.all_entities
            (g c).entities_by_type } := rfl

/-- Evaluation of `_generate_final_summary` under a total summarization
oracle: the meta-summary call happens exactly when more than one chunk
exists. -/
theorem generateFinalSummary_okGen (f : String → Int → String)
    (st : PipelineState) :
    generateFinalSummary (fun s n => Except.ok (f s n)) st =
      Except.ok (if 1 < st.chunk_summaries.length
                 then f (String.intercalate " "
                     (st.chunk_summaries.map ChunkData.summary))
                     (resolveMaxLength (some 300))
                 else String.intercalate " "
                     (st.chunk_summaries.map ChunkData.summary)) := by
  unfold generateFinalSummary generate_summary
  by_cases h : 1 < st.chunk_summaries.length
  · simp [h]
  · simp [h]
    rfl

/-! ## Claim C5 -/

/-- C5, counterexample: after a completed `is_final=true` call (the
session the spec calls Closed), a further `process_text_async` call does
not fail — it succeeds and appends the new fragment to the transcript.
No SessionClosedError and no closed-state check exist in the code. -/
theorem c5_counterexample :
    ((processTextAsync okGen okExt (initialState 3 1) "end" true).bind
      (fun st => processTextAsync okGen okExt st "more" false)).map
      PipelineState.complete_transcript = Except.ok ["end", "more"] := rfl

/-- C5 (amended): the pipeline has no terminal state.  For every session
state — including any state reached by a completed `is_final=true` call —
a further `process_text_async` call under working external collaborators
succeeds and appends the fragment to `complete_transcript`; no
SessionClosedError exists anywhere in the repository. -/
theorem c5_amended_no_closed_state (f : String → Int → String)
    (g : String → EntitiesResult) (st : PipelineState) (text : String)
    (is_final : Bool) :
    (processTextAsync (fun s n => Except.ok (f s n))
        (fun s => Except.ok (g s)) st text is_final).map
      PipelineState.complete_transcript =
      Except.ok (st.complete_transcript ++ [text]) := by
  unfold processTextAsync
  cases is_final
  all_goals
    simp only [exceptPure, exceptBind_ok, processChunk_okOracles,
      generateFinalSummary_okGen, exceptMap_ok]
    split_ifs <;>
      (try contradiction) <;>
      simp only [exceptPure, exceptBind_ok, processChunk_okOracles,
        generateFinalSummary_okGen, exceptMap_ok]

/-! ## Claim C6 -/

/-- C6, counterexample: a fragment that fills the buffer triggers a chunk
whose summarization fails; the pipeline does not record a failed chunk and
does not continue — the error propagates out of `process_text_async` and
aborts the call. -/
theorem c6_counterexample :
    processTextAsync failGen okExt (initialState 3 1) "a b c" false =
      Except.error PyError.modelUnavailable := rfl

/-- C6 (amended): `_process_chunk` performs no error handling: a
ModelUnavailableError from the summarization call, or from the entity
extraction after a successful summarization, propagates unchanged out of
`_process_chunk` (and hence out of `process_text_async`); no failed-chunk
record with empty summary and entities is ever appended. -/
theorem c6_amended_error_propagates
    (gen : String → Int → Except PyError String)
    (ext : String → Except PyError EntitiesResult)
    (st : PipelineState) (chunk : String) :
    (gen chunk (resolveMaxLength none) =
        Except.error PyError.modelUnavailable →
      processChunk gen ext st chunk =
        Except.error PyError.modelUnavailable) ∧
    (∀ s, gen chunk (resolveMaxLength none) = Except.ok s →
      ext chunk = Except.error PyError.modelUnavailable →
      processChunk gen ext st chunk =
        Except.error PyError.modelUnavailable) := by
  constructor
  · intro h
    unfold processChunk generate_summary
    rw [h, exceptBind_error]
  · intro s hs hext
    unfold processChunk generate_summary
    rw [hs, exceptBind_ok, hext, exceptBind_error]

/-- Witness for `c6_amended_error_propagates` with an always-failing
summarization oracle on a concrete session. -/
theorem c6_amended_error_propagates_witness :
    processChunk failGen okExt (initialState 3 1) "a b c" =
      Except.error PyError.modelUnavailable :=
  (c6_amended_error_propagates failGen okExt (initialState 3 1) "a b c").1
    rfl

/-! ## Claim C8 -/

/-- Appending a record numbered one past the end preserves consecutive
chunk numbering. -/
theorem chunkNumbersConsecutive_append (l : List ChunkData)
    (cd : ChunkData) (h : chunkNumbersConsecutive l)
    (hcd : cd.chunk_number = l.length + 1) :
    chunkNumbersConsecutive (l ++ [cd]) := by
  intro i hi
  rw [List.length_append, List.length_singleton] at hi
  rw [List.get_eq_getElem]
  by_cases hil : i < l.length
  · rw [List.getElem_append_left]
    have hh := h i hil
    rw [List.get_eq_getElem] at hh
    exact hh
  · have hieq : i = l.length := by omega
    subst hieq
    simp [hcd]

/-- C8: `_generate_final_summary` with exactly one chunk result returns
that chunk's summary verbatim for every summarization oracle — in
particular for a failing one, which proves no Summarize call is made.
With more than one chunk it makes exactly one oracle call on the chunk
summaries joined in list order by single spaces, at resolved target
length 300, which exceeds the per-chunk default
`settings.max_summary_length = 200`.  List order coincides with
`chunk_number` order because `_process_chunk` numbers records
consecutively. -/
theorem c8_final_summary_correct
    (gen : String → Int → Except PyError String) (st : PipelineState) :
    (∀ c, st.chunk_summaries = [c] →
      generateFinalSummary gen st = Except.ok c.summary) ∧
    (1 < st.chunk_summaries.length →
      generateFinalSummary gen st =
        gen (String.intercalate " "
          (st.chunk_summaries.map ChunkData.summary)) 300) ∧
    resolveMaxLength (some 300) = 300 ∧
    max_summary_length < resolveMaxLength (some 300) ∧
    (∀ ext c st', chunkNumbersConsecutive st.chunk_summaries →
      processChunk gen ext st c = Except.ok st' →
      chunkNumbersConsecutive st'.chunk_summaries) := by
  refine ⟨?_, ?_, rfl, by decide, ?_⟩
  · intro c hc
    unfold generateFinalSummary
    rw [hc]
    rfl
  · intro h
    unfold generateFinalSummary generate_summary
    rw [if_pos h]
    rfl
  · intro ext c st' hcons hok
    unfold processChunk generate_summary at hok
    cases hg : gen c (resolveMaxLength none) with
    | error e => rw [hg, exceptBind_error] at hok; exact absurd hok (by simp)
    | ok s =>
      rw [hg, exceptBind_ok] at hok
      cases he : ext c with
      | error e =>
        rw [he, exceptBind_error] at hok
        exact absurd hok (by simp)
      | ok ents =>
        rw [he, exceptBind_ok, exceptPure] at hok
        have hst : st' =
            { st with
              chunk_summaries := st.chunk_summaries ++
                [⟨st.chunk_summaries.length + 1, s, ents,
                  (pySplit c).length⟩]
              all_entities := mergeEntities st.all_entities
                ents.entities_by_type } := by
          cases hok
          rfl
        subst hst
        exact chunkNumbersConsecutive_append st.chunk_summaries _ hcons rfl

/-- A one-chunk session for the C8 witness. -/
def c8exState : PipelineState :=
  ⟨mkBuffer 3 1, [⟨1, "S", ⟨[]⟩, 3⟩], [], []⟩

/-- Witness for `c8_final_summary_correct`: a single-chunk session yields
its chunk summary verbatim even under an always-failing oracle, and the
meta-summary target length exceeds the per-chunk default. -/
theorem c8_final_summary_correct_witness :
    generateFinalSummary failGen c8exState = Except.ok "S" ∧
    max_summary_length < resolveMaxLength (some 300) :=
  ⟨(c8_final_summary_correct failGen c8exState).1 ⟨1, "S", ⟨[]⟩, 3⟩ rfl,
   (c8_final_summary_correct failGen c8exState).2.2.2.1⟩

/-! ## Claim C9 -/

/-- C9: the consolidated summary value computed at finalization is
unobservable through the public interface.  Two summarization oracles that
agree on per-chunk calls (resolved default length) but may disagree on the
final `max_length=300` call — as long as both succeed there — produce
identical session states from a final `process_text_async` call, so the
discarded `_generate_final_summary` value never reaches the state; and
`get_results` exposes exactly the keys `chunk_summaries`, `entities`,
`transcript_parts` and `buffer_stats`, with no consolidated-summary
field. -/
theorem c9_final_summary_unobservable
    (gen₁ gen₂ : String → Int → Except PyError String)
    (ext : String → Except PyError EntitiesResult)
    (st : PipelineState) (text : String)
    (hagree : ∀ s, gen₁ s (resolveMaxLength none) =
      gen₂ s (resolveMaxLength none))
    (h₁ : ∀ s, (gen₁ s 300).isOk = true)
    (h₂ : ∀ s, (gen₂ s 300).isOk = true) :
    processTextAsync gen₁ ext st text true =
      processTextAsync gen₂ ext st text true ∧
    (getResults st).map Prod.fst =
      ["chunk_summaries", "entities", "transcript_parts", "buffer_stats"] := by
  have hpc : ∀ st' c, processChunk gen₁ ext st' c =
      processChunk gen₂ ext st' c := by
    intro st' c
    unfold processChunk generate_summary
    rw [hagree c]
  have hfs : ∀ st' : PipelineState,
      (generateFinalSummary gen₁ st' >>=
        fun _ => (pure st' : Except PyError PipelineState)) =
      (generateFinalSummary gen₂ st' >>= fun _ => pure st') := by
    intro st'
    unfold generateFinalSummary generate_summary
    by_cases hl : 1 < st'.chunk_summaries.length
    · rw [if_pos hl, if_pos hl]
      have hr : resolveMaxLength (some 300) = 300 := rfl
      rw [hr]
      have e1 := h₁ (String.intercalate " "
        (st'.chunk_summaries.map ChunkData.summary))
      have e2 := h₂ (String.intercalate " "
        (st'.chunk_summaries.map ChunkData.summary))
      cases hg1 : gen₁ (String.intercalate " "
          (st'.chunk_summaries.map ChunkData.summary)) 300 with
      | error e =>
        rw [hg1] at e1
        simp [Except.isOk, Except.toBool] at e1
      | ok v1 =>
        cases hg2 : gen₂ (String.intercalate " "
            (st'.chunk_summaries.map ChunkData.summary)) 300 with
        | error e =>
          rw [hg2] at e2
          simp [Except.isOk, Except.toBool] at e2
        | ok v2 => rfl
    · rw [if_neg hl, if_neg hl]
  refine ⟨?_, rfl⟩
  unfold processTextAsync
  simp only [hpc, hfs]

/-- A summarization oracle answering A on the length-300 meta-summary
call and c on every other call, for the C9 witness. -/
def genA : String → Int → Except PyError String :=
  fun _ n => if n = 300 then Except.ok "A" else Except.ok "c"

/-- A summarization oracle answering B on the length-300 meta-summary
call and c on every other call, for the C9 witness. -/
def genB : String → Int → Except PyError String :=
  fun _ n => if n = 300 then Except.ok "B" else Except.ok "c"

/-- Witness for `c9_final_summary_unobservable`: two oracles disagreeing
only on the final meta-summary value produce identical session states on a
two-chunk finalizing call. -/
theorem c9_final_summary_unobservable_witness :
    processTextAsync genA okExt (initialState 3 1) "a b c d" true =
      processTextAsync genB okExt (initialState 3 1) "a b c d" true ∧
    (getResults (initialState 3 1)).map Prod.fst =
      ["chunk_summaries", "entities", "transcript_parts", "buffer_stats"] :=
  c9_final_summary_unobservable genA genB okExt (initialState 3 1) "a b c d"
    (fun _ => rfl) (fun _ => rfl) (fun _ => rfl)

/-! ## Claim C7 -/

/-- When every carried timestamp fails to parse, the windowing loop of
`segment_by_time` only accumulates: no window is emitted and no window
start is ever set. -/
theorem sbtFold_noparse (parseTS : String → Option Int) (iso : Int → String)
    (wm : Int) (segs : List PySegment)
    (h : ∀ s ∈ segs, ∀ ts, s.timestamp = some ts → parseTS ts = none) :
    ∀ cur, segs.foldl (sbtStep parseTS iso wm) ⟨[], cur, none⟩ =
      ⟨[], cur ++ segs, none⟩ := by
  induction segs with
  | nil => intro cur; simp
  | cons s rest ih =>
    intro cur
    have hstep : sbtStep parseTS iso wm ⟨[], cur, none⟩ s =
        ⟨[], cur ++ [s], none⟩ := by
      unfold sbtStep
      cases hts : s.timestamp with
      | none => simp [pyTruthy]
      | some ts =>
        by_cases htr : ts = ""
        · subst htr; simp [pyTruthy, hts]
        · have hp := h s (List.mem_cons_self s rest) ts hts
          simp [pyTruthy, hts, htr, hp]
    rw [List.foldl_cons, hstep,
      ih (fun u hu ts hts => h u (List.mem_cons_of_mem s hu) ts hts)]
    simp

/-- C7, counterexample: on an input whose segments carry no timestamp at
all (here one segment, as `segment_by_speaker` yields on "Alice: hi"),
`segment_by_time` does not return a window with `window_start = "unknown"`
— it short-circuits to the distinct `{"window": "full", "content": text}`
dictionary, which carries no `window_start` key and the raw text instead
of the parsed segments. -/
theorem c7_counterexample :
    segment_by_time (fun _ => [⟨"Alice", "hi", none, some 0⟩])
        (fun _ => none) (fun _ => "") "Alice: hi" 5 =
      [TimeWindow.fullWindow "Alice: hi"] ∧
    [TimeWindow.fullWindow "Alice: hi"] ≠
      [TimeWindow.timedWindow "unknown" [⟨"Alice", "hi", none, some 0⟩]] :=
  ⟨by decide, by decide⟩

/-- C7 (amended): when no carried timestamp is parseable, the result of
`segment_by_time` depends on whether any segment carries a (truthy)
timestamp string at all.  If at least one does, the function returns
exactly one window with `window_start = "unknown"` containing all parsed
segments in original order; if none does (or no segments parse), it
returns the single `{"window": "full", "content": text}` dictionary
instead. -/
theorem c7_amended_unknown_window (segmenter : String → List PySegment)
    (parseTS : String → Option Int) (iso : Int → String) (text : String)
    (wm : Int)
    (hnoparse : ∀ s ∈ segmenter text, ∀ ts, s.timestamp = some ts →
      parseTS ts = none) :
    ((segmenter text).any (fun s => pyTruthy s.timestamp) = true →
      segment_by_time segmenter parseTS iso text wm =
        [TimeWindow.timedWindow "unknown" (segmenter text)]) ∧
    ((segmenter text).any (fun s => pyTruthy s.timestamp) = false →
      segment_by_time segmenter parseTS iso text wm =
        [TimeWindow.fullWindow text]) := by
  constructor
  · intro hany
    have hne : (segmenter text).isEmpty = false := by
      cases hseg : segmenter text with
      | nil => rw [hseg] at hany; simp at hany
      | cons a l => simp
    have hnil : segmenter text ≠ [] := by
      intro hc
      rw [hc] at hany
      simp at hany
    unfold segment_by_time
    simp [hne, hany, hnil,
      sbtFold_noparse parseTS iso wm (segmenter text) hnoparse]
  · intro hany
    unfold segment_by_time
    simp [hany]

/-- The segment list that `segment_by_speaker` produces on a one-line
transcript with an unparseable bracketed timestamp, for the C7 witness. -/
def exSegmenter : String → List PySegment :=
  fun _ => [⟨"Alice", "hi", some "bad", some 0⟩]

/-- Witness for `c7_amended_unknown_window`: one segment with the
unparseable timestamp string bad yields the single unknown-start window. -/
theorem c7_amended_unknown_window_witness :
    segment_by_time exSegmenter (fun _ => none) (fun _ => "")
        "[bad] Alice: hi" 5 =
      [TimeWindow.timedWindow "unknown"
        [⟨"Alice", "hi", some "bad", some 0⟩]] :=
  (c7_amended_unknown_window exSegmenter (fun _ => none) (fun _ => "")
    "[bad] Alice: hi" 5 (fun _ _ _ _ => rfl)).1 (by decide)

end TeamsSummarizer
